import Mathlib

/-!
Verification of the student-attention browser extension client
(background script, popup script and dashboard page) against its
natural-language specification.  The JavaScript is shallowly embedded:
DOM documents become records of the queried markers, the browser event
loop becomes an explicit step function on a scheduler state, and
network effects become oracle parameters.
-/

namespace StudentAttention

/-- A `<video>` element, restricted to the properties the scripts query:
`offsetWidth`/`offsetHeight` (rendered dimensions), `srcObject`
(whether an active media source is attached) and `readyState`. -/
structure VideoElement where
  offsetWidth : Nat
  offsetHeight : Nat
  srcObject : Bool
  readyState : Nat
  deriving DecidableEq, Repr

/-- A document, restricted to the DOM queries performed by the two
`checkMeetingStatus` functions: presence of each queried attribute
selector, and the list of `<video>` elements
(`document.querySelectorAll('video')` in document order;
`document.querySelector('video')` is its head). -/
structure Document where
  hasIsMuted : Bool
  hasAllocationIndex : Bool
  hasParticipantId : Bool
  hasTooltipTtM0 : Bool
  hasMeetingArea : Bool
  hasMeetingContainer : Bool
  hasMeetingTitle : Bool
  hasMeetingStatus : Bool
  videos : List VideoElement
  deriving DecidableEq, Repr

/-- Background script `checkMeetingStatus`: builds the `indicators`
object from nine DOM queries and returns whether some indicator is
non-null (`Object.values(indicators).some(i => i !== null)`). -/
def checkMeetingStatus (d : Document) : Bool :=
  d.hasIsMuted || d.hasAllocationIndex || d.hasParticipantId ||
  d.hasTooltipTtM0 || d.hasMeetingArea || d.hasMeetingContainer ||
  !d.videos.isEmpty || d.hasMeetingTitle || d.hasMeetingStatus

/-- Popup script `checkMeetingStatus`: disjunction of exactly four
attribute queries (`data-is-muted`, `data-allocation-index`,
`data-participant-id`, `data-tooltip-id="tt-m0"`). -/
def popupCheckMeetingStatus (d : Document) : Bool :=
  d.hasIsMuted || d.hasAllocationIndex || d.hasParticipantId ||
  d.hasTooltipTtM0

/-- The marker set named by the spec for the meeting detector:
mute-state attribute, participant-allocation attribute, participant-id
attribute, the specific tooltip id, or a (live) video element.
Written from the spec's words, to be compared with
`checkMeetingStatus`, which is written from the source. -/
def specFiveMarkers (d : Document) : Bool :=
  d.hasIsMuted || d.hasAllocationIndex || d.hasParticipantId ||
  d.hasTooltipTtM0 || !d.videos.isEmpty

/-- The full marker set actually queried by the background detector:
the spec's five plus `data-meeting-area`, `data-meeting-container`,
`data-meeting-title` and `data-meeting-status`. -/
def knownMarkers (d : Document) : List Bool :=
  [d.hasIsMuted, d.hasAllocationIndex, d.hasParticipantId,
   d.hasTooltipTtM0, d.hasMeetingArea, d.hasMeetingContainer,
   !d.videos.isEmpty, d.hasMeetingTitle, d.hasMeetingStatus]

/-- `captureCameraImage`'s qualification predicate on video elements:
`offsetWidth > 100 && offsetHeight > 100 && srcObject &&
readyState === 4`. -/
def isSuitableVideo (v : VideoElement) : Bool :=
  decide (v.offsetWidth > 100) && decide (v.offsetHeight > 100) &&
  v.srcObject && v.readyState == 4

/-- `videoElements.find(...)` in `captureCameraImage`: first video
satisfying `isSuitableVideo`, if any. -/
def findMainVideo (videos : List VideoElement) : Option VideoElement :=
  videos.find? isSuitableVideo

/-- Outcome of the `captureCameraImage` retry loop: either a suitable
video was selected, or the loop abandoned silently after exhausting
its retries. -/
inductive CaptureOutcome where
  | captured (v : VideoElement)
  | gaveUp
  deriving DecidableEq, Repr

/-- `captureCameraImage`'s video-selection retry loop.  `docs n` is
the video list the document presents at attempt number `n` (each retry
re-queries a possibly changed DOM after the fixed 1000 ms delay).
If no suitable video is found and `retryCount < 10`, the function
re-invokes itself with `retryCount + 1`; at `retryCount = 10` it logs
and returns without producing a frame. -/
def captureCameraImage (docs : Nat → List VideoElement) (retryCount : Nat) :
    CaptureOutcome :=
  match findMainVideo (docs retryCount) with
  | some v => CaptureOutcome.captured v
  | none =>
    if retryCount < 10 then captureCameraImage docs (retryCount + 1)
    else CaptureOutcome.gaveUp
termination_by 10 - retryCount
decreasing_by omega

/-- Number of selection attempts (initial call plus retries) performed
by `captureCameraImage` starting from `retryCount`. -/
def captureAttempts (docs : Nat → List VideoElement) (retryCount : Nat) : Nat :=
  match findMainVideo (docs retryCount) with
  | some _ => 1
  | none =>
    if retryCount < 10 then 1 + captureAttempts docs (retryCount + 1)
    else 1
termination_by 10 - retryCount
decreasing_by omega

/-! ## Capture scheduler (background script timer state) -/

/-- State of the background script's timer machinery together with the
browser's timer table.  `captureInterval` is the script's single global
handle variable; `liveIntervals` are the interval timers the browser is
actually running (a cleared interval is removed); `pendingTimeouts`
are the not-yet-fired 1000 ms startup timeouts scheduled by
`startCameraCapture`; `nextId` supplies fresh browser timer ids;
`badgeText` is the extension action badge. -/
structure SchedState where
  captureInterval : Option Nat
  liveIntervals : List Nat
  pendingTimeouts : List Nat
  nextId : Nat
  badgeText : String
  deriving DecidableEq, Repr

/-- Initial state: `let captureInterval = null`, no browser timers. -/
def initSchedState : SchedState :=
  { captureInterval := none, liveIntervals := [], pendingTimeouts := [],
    nextId := 0, badgeText := "" }

/-- `startCameraCapture(tabId)`: if the handle is non-null, clear that
interval (the handle itself is not reassigned here), then schedule the
1-second startup `setTimeout`.  The interval is only created when that
timeout later fires (`fireStartTimeout`). -/
def startCameraCapture (s : SchedState) : SchedState :=
  let live :=
    match s.captureInterval with
    | some i => s.liveIntervals.filter (fun j => j ≠ i)
    | none => s.liveIntervals
  { s with liveIntervals := live,
           pendingTimeouts := s.pendingTimeouts ++ [s.nextId],
           nextId := s.nextId + 1 }

/-- The startup `setTimeout` callback firing: creates the 2000 ms
capture interval with `setInterval` and assigns its id to
`captureInterval`, overwriting (not clearing) whatever the handle
held. -/
def fireStartTimeout (s : SchedState) : SchedState :=
  match s.pendingTimeouts with
  | [] => s
  | _ :: rest =>
    { s with pendingTimeouts := rest,
             captureInterval := some s.nextId,
             liveIntervals := s.liveIntervals ++ [s.nextId],
             nextId := s.nextId + 1 }

/-- `stopCameraCapture()`: if the handle is non-null, clear that
interval and set the handle to null; otherwise do nothing. -/
def stopCameraCapture (s : SchedState) : SchedState :=
  match s.captureInterval with
  | some i =>
    { s with liveIntervals := s.liveIntervals.filter (fun j => j ≠ i),
             captureInterval := none }
  | none => s

/-- The `chrome.tabs.onRemoved` listener: for every removed tab,
unconditionally blank the badge and call `stopCameraCapture` (the
`tabId` is never inspected). -/
def onTabRemoved (_tabId : Nat) (s : SchedState) : SchedState :=
  stopCameraCapture { s with badgeText := "" }

/-- Events of the scheduler's event loop that touch the timer state. -/
inductive SchedEvent where
  | start (tabId : Nat)
  | startupTimeoutFires
  | stop
  | tabRemoved (tabId : Nat)
  deriving DecidableEq, Repr

/-- One event-loop step. -/
def stepEvent (s : SchedState) : SchedEvent → SchedState
  | SchedEvent.start _ => startCameraCapture s
  | SchedEvent.startupTimeoutFires => fireStartTimeout s
  | SchedEvent.stop => stopCameraCapture s
  | SchedEvent.tabRemoved t => onTabRemoved t s

/-- Run a sequence of events from a state. -/
def runEvents (s : SchedState) (es : List SchedEvent) : SchedState :=
  es.foldl stepEvent s

/-- Quiescent scheduler states: no startup timeout is pending and the
browser runs exactly the interval the handle names (or none). -/
def Quiescent (s : SchedState) : Prop :=
  s.pendingTimeouts = [] ∧
  s.liveIntervals = (match s.captureInterval with
                     | some i => [i]
                     | none => [])

instance : DecidablePred Quiescent := fun s => by
  unfold Quiescent; infer_instance

/-! ## Uploader (`sendImageToBackend`) and message handler -/

/-- The fixed upload endpoint (`BACKEND_URL`). -/
def BACKEND_URL : String := "https://student-attention.onrender.com/api/images"

/-- Identity and frame fields handed to `sendImageToBackend`
(the page-derived ones are nullable). -/
structure UploadParams where
  imageData : String
  meetingId : Option String
  userId : Option String
  participantId : Option String
  userName : Option String
  deviceId : String
  deriving DecidableEq, Repr

/-- A fetch response, restricted to what the uploader inspects:
its HTTP status and, when `response.json()` succeeds, the parsed
body (abstracted to a string). -/
structure HttpResponse where
  status : Nat
  jsonBody : Option String
  deriving DecidableEq, Repr

/-- `response.ok` per the fetch specification: status in 200..299. -/
def responseOk (r : HttpResponse) : Bool :=
  decide (200 ≤ r.status) && decide (r.status ≤ 299)

/-- The HTTP request the uploader dispatches: method, URL, and the
JSON body as the ordered field list of the `JSON.stringify` argument. -/
structure HttpRequest where
  method : String
  url : String
  body : List (String × Option String)
  deriving DecidableEq, Repr

/-- The object literal serialized as the upload body, in source order;
`now` is the client-generated `new Date().toISOString()`. -/
def uploadBody (p : UploadParams) (now : String) : List (String × Option String) :=
  [("imageData", some p.imageData),
   ("meetingId", p.meetingId),
   ("timestamp", some now),
   ("userId", p.userId),
   ("participantId", p.participantId),
   ("userName", p.userName),
   ("deviceId", some p.deviceId)]

/-- `sendImageToBackend`: performs one `fetch` POST to `BACKEND_URL`.
`responses` is the oracle of responses the network would hand to
successive fetches; exactly the head is consumed (an empty oracle
models the fetch itself rejecting).  A non-ok status throws
`HTTP error! status: ...`; then `response.json()` must succeed; any
error is caught, logged and re-thrown to the caller as `Except.error`.
Returns the dispatched request together with the outcome. -/
def sendImageToBackend (p : UploadParams) (now : String)
    (responses : List HttpResponse) : HttpRequest × Except String String :=
  ({ method := "POST", url := BACKEND_URL, body := uploadBody p now },
   match responses with
   | [] => Except.error "network request failed"
   | r :: _ =>
     if responseOk r then
       match r.jsonBody with
       | some j => Except.ok j
       | none => Except.error "invalid JSON in response body"
     else
       Except.error ("HTTP error! status: " ++ toString r.status))

/-- The reply `sendResponse` sends back to the content script. -/
structure MsgResponse where
  success : Bool
  error : Option String
  deriving DecidableEq, Repr

/-- The `chrome.runtime.onMessage` listener's handling of an
`IMAGE_CAPTURED` message, given the settled result of
`sendImageToBackend`: `.then` replies `{success: true}`, `.catch`
logs the failure and replies `{success: false, error}`.  Returns the
reply and the console-error lines emitted (the handler itself never
throws).  -/
def onMessageImageCaptured (uploadResult : Except String String) :
    MsgResponse × List String :=
  match uploadResult with
  | Except.ok _ => ({ success := true, error := none }, [])
  | Except.error e =>
    ({ success := false, error := some e },
     ["Failed to send image from background: " ++ e])

/-! ## Identity resolver (`getDeviceId`) -/

/-- `getDeviceId`: read `deviceId` from `chrome.storage.local`; if
present, pass it to the callback; otherwise generate a fresh random id
(`fresh`, standing for `crypto.randomUUID()`), store it, and pass it to
the callback only from the store-completion callback.  Returns the
value handed to the callback and the storage afterwards. -/
def getDeviceId (storage : Option String) (fresh : String) :
    String × Option String :=
  match storage with
  | some id => (id, some id)
  | none => (fresh, some fresh)

/-- Observable operations `getDeviceId` performs, in order. -/
inductive DevIdEvent where
  | readStorage
  | writeStorage (id : String)
  | callback (id : String)
  deriving DecidableEq, Repr

/-- The ordered operation trace of one `getDeviceId` call: on a miss
the storage write is issued and completes before the callback runs. -/
def getDeviceIdTrace (storage : Option String) (fresh : String) :
    List DevIdEvent :=
  match storage with
  | some id => [DevIdEvent.readStorage, DevIdEvent.callback id]
  | none => [DevIdEvent.readStorage, DevIdEvent.writeStorage fresh,
             DevIdEvent.callback fresh]

/-- Repeated calls to `getDeviceId`, threading the storage state; the
`freshes` list supplies the random id each call would generate on a
miss.  Returns the ids handed to the callbacks in order, and the final
storage. -/
def iterateGetDeviceId (storage : Option String) (freshes : List String) :
    List String × Option String :=
  match freshes with
  | [] => ([], storage)
  | f :: fs =>
    let (id, st) := getDeviceId storage f
    let (ids, st') := iterateGetDeviceId st fs
    (id :: ids, st')

/-! ## Dashboard client (`attention_lookup.html` submit handler) -/

/-- One row of the dashboard query result. -/
structure AttentionRow where
  email : String
  attentionScore : Nat
  duration : String
  deriving DecidableEq, Repr

/-- What the submit handler leaves in the `results` div. -/
inductive RenderedView where
  | noData
  | table (rows : List AttentionRow)
  | errorView
  deriving DecidableEq, Repr

/-- The `searchForm` submit handler, given the settled outcome of
`fetch('/api/attention-data')` followed by `response.json()`
(`Except.error` = fetch rejected or JSON parse threw): empty array
renders the no-data block, non-empty renders the table, any thrown
error is caught and renders the error block.  Total: no exception
escapes the handler. -/
def handleSearchSubmit (result : Except String (List AttentionRow)) :
    RenderedView :=
  match result with
  | Except.error _ => RenderedView.errorView
  | Except.ok rows =>
    if rows.length = 0 then RenderedView.noData
    else RenderedView.table rows

/-- The heading text of each rendered view, as written in the page's
template literals (the table view's heading row). -/
def viewHeading : RenderedView → String
  | RenderedView.noData => "No data found"
  | RenderedView.table _ => "User Email"
  | RenderedView.errorView => "Error"

/-- Whether the rendered view is a results table. -/
def isTableView : RenderedView → Bool
  | RenderedView.table _ => true
  | _ => false

/-! ## Concrete example values used in witnesses and counterexamples -/

/-- A playing camera video: large, with an active stream, ready. -/
def vLive : VideoElement :=
  { offsetWidth := 640, offsetHeight := 480, srcObject := true,
    readyState := 4 }

/-- A thumbnail-sized video that nevertheless has a stream and full
ready-state. -/
def vSmall : VideoElement :=
  { offsetWidth := 50, offsetHeight := 50, srcObject := true,
    readyState := 4 }

/-- A document whose only meeting marker is `data-meeting-area`. -/
def dMeetingAreaOnly : Document :=
  { hasIsMuted := false, hasAllocationIndex := false,
    hasParticipantId := false, hasTooltipTtM0 := false,
    hasMeetingArea := true, hasMeetingContainer := false,
    hasMeetingTitle := false, hasMeetingStatus := false, videos := [] }

/-- A document containing a video element and none of the four
data-attribute/tooltip markers. -/
def dVideoOnly : Document :=
  { hasIsMuted := false, hasAllocationIndex := false,
    hasParticipantId := false, hasTooltipTtM0 := false,
    hasMeetingArea := false, hasMeetingContainer := false,
    hasMeetingTitle := false, hasMeetingStatus := false,
    videos := [vLive] }

/-- A scheduler state with one running interval, handle set, badge on. -/
def sRunning : SchedState :=
  { captureInterval := some 5, liveIntervals := [5], pendingTimeouts := [],
    nextId := 6, badgeText := "ON" }

/-- An HTTP 500 response (body irrelevant to the failure path). -/
def resp500 : HttpResponse := { status := 500, jsonBody := none }

/-- A successful response with a parsed JSON body. -/
def resp200 : HttpResponse := { status := 200, jsonBody := some "scored" }

/-- Upload parameters used in witnesses. -/
def pExample : UploadParams :=
  { imageData := "data:image/jpeg;base64,AAA", meetingId := some "abc-defg-hij",
    userId := some "u1", participantId := some "p1",
    userName := some "Student", deviceId := "device-123" }

/-- A dashboard result row used in witnesses. -/
def rowExample : AttentionRow :=
  { email := "student@example.com", attentionScore := 87, duration := "12m" }

/-! ## Theorems -/

/-- Claim C2, counterexample: the background meeting detector is not
the disjunction of the five markers the claim lists.  On a document
whose only marker is the `data-meeting-area` attribute, every marker
of the claimed five-element set is absent, yet the detector returns
true — refuting the claimed "only if" direction. -/
theorem c2_counterexample :
    checkMeetingStatus dMeetingAreaOnly = true ∧
    specFiveMarkers dMeetingAreaOnly = false := by
  decide

/-- Claim C2, amended: the background meeting detector returns true if
and only if at least one marker of its fixed nine-element set —
mute-state attribute, participant-allocation attribute, participant-id
attribute, the specific tooltip id, meeting-area attribute,
meeting-container attribute, a video element, meeting-title attribute,
or meeting-status attribute — is present: every document lacking all
nine yields false, and every document containing at least one yields
true. -/
theorem c2_checkMeetingStatus_iff_known_marker (d : Document) :
    checkMeetingStatus d = true ↔ true ∈ knownMarkers d := by
  simp [checkMeetingStatus, knownMarkers]
  tauto

/-- Claim C9: on every document that contains a video element but none
of the four data-attribute/tooltip markers, the background detector
returns true while the popup detector returns false; consequently the
two detector functions are not extensionally equal. -/
theorem c9_detectors_disagree (d : Document) (hv : d.videos ≠ [])
    (h1 : d.hasIsMuted = false) (h2 : d.hasAllocationIndex = false)
    (h3 : d.hasParticipantId = false) (h4 : d.hasTooltipTtM0 = false) :
    checkMeetingStatus d = true ∧ popupCheckMeetingStatus d = false ∧
    checkMeetingStatus ≠ popupCheckMeetingStatus := by
  have hb : checkMeetingStatus d = true := by
    simp [checkMeetingStatus, h1, h2, h3, h4, List.isEmpty_iff, hv]
  have hp : popupCheckMeetingStatus d = false := by
    simp [popupCheckMeetingStatus, h1, h2, h3, h4]
  refine ⟨hb, hp, fun heq => ?_⟩
  rw [heq, hp] at hb
  exact Bool.false_ne_true hb

/-- Witness for C9 at a concrete document: one live video, none of the
four popup markers. -/
theorem c9_witness :
    checkMeetingStatus dVideoOnly = true ∧
    popupCheckMeetingStatus dVideoOnly = false := by
  have h := c9_detectors_disagree dVideoOnly (by decide) rfl rfl rfl rfl
  exact ⟨h.1, h.2.1⟩

/-- Claim C4: a video element whose rendered width and height are both
at most 100 is never selected by `captureCameraImage`'s video search,
whatever its ready-state or media source, and whatever else the
document contains. -/
theorem c4_small_video_never_selected (vs : List VideoElement)
    (v : VideoElement) (hw : v.offsetWidth ≤ 100)
    (hh : v.offsetHeight ≤ 100) : findMainVideo vs ≠ some v := by
  intro hfind
  have hs : isSuitableVideo v = true := List.find?_some hfind
  simp [isSuitableVideo] at hs
  obtain ⟨h1, -⟩ := hs
  omega

/-- Witness for C4: a 50×50 video with a stream and full ready-state
is not selected even when it precedes a qualifying video. -/
theorem c4_witness :
    vSmall.offsetWidth ≤ 100 ∧ vSmall.offsetHeight ≤ 100 ∧
    findMainVideo [vSmall, vLive] ≠ some vSmall :=
  ⟨by decide, by decide,
   c4_small_video_never_selected [vSmall, vLive] vSmall (by decide) (by decide)⟩

/-- If no attempt ever finds a suitable video, the retry loop of
`captureCameraImage` returns the silent give-up outcome (from any
retry count; in particular it terminates). -/
theorem captureCameraImage_none_gaveUp (docs : Nat → List VideoElement)
    (h : ∀ n, findMainVideo (docs n) = none) (r : Nat) :
    captureCameraImage docs r = CaptureOutcome.gaveUp := by
  unfold captureCameraImage
  simp only [h r]
  split
  · exact captureCameraImage_none_gaveUp docs h (r + 1)
  · rfl
termination_by 10 - r
decreasing_by omega

/-- If no attempt ever finds a suitable video, the loop performs
exactly `11 - r` attempts from retry count `r ≤ 10`. -/
theorem captureAttempts_none (docs : Nat → List VideoElement)
    (h : ∀ n, findMainVideo (docs n) = none) (r : Nat) (hr : r ≤ 10) :
    captureAttempts docs r = 11 - r := by
  unfold captureAttempts
  simp only [h r]
  split
  · rw [captureAttempts_none docs h (r + 1) (by omega)]
    omega
  · omega
termination_by 10 - r
decreasing_by omega

/-- Claim C5: when no qualifying video element is ever found,
`captureCameraImage` performs its initial attempt plus exactly ten
retries (retry counter bounded by 10) and then gives up silently
without producing a frame; the recursion terminates (it is accepted as
total, decreasing in `10 - retryCount`). -/
theorem c5_capture_retry_bounded (docs : Nat → List VideoElement)
    (h : ∀ n, findMainVideo (docs n) = none) :
    captureCameraImage docs 0 = CaptureOutcome.gaveUp ∧
    captureAttempts docs 0 = 11 :=
  ⟨captureCameraImage_none_gaveUp docs h 0,
   captureAttempts_none docs h 0 (by omega)⟩

/-- Witness for C5: a document with no video elements at any attempt. -/
theorem c5_witness :
    captureCameraImage (fun _ => []) 0 = CaptureOutcome.gaveUp ∧
    captureAttempts (fun _ => []) 0 = 11 :=
  c5_capture_retry_bounded (fun _ => []) (fun _ => rfl)

/-- Claim C1, counterexample: from the initial state, calling
`startCameraCapture` twice in succession on the same tab before
either 1-second startup timeout has fired, and then letting both
timeouts fire, leaves TWO live capture intervals (ids 2 and 3), with
the handle referencing only the second — the first interval is leaked
and keeps ticking, so "exactly one active timer, no duplicate ticks"
fails for this event sequence. -/
theorem c1_counterexample :
    (runEvents initSchedState [SchedEvent.start 1, SchedEvent.start 1,
      SchedEvent.startupTimeoutFires,
      SchedEvent.startupTimeoutFires]).liveIntervals = [2, 3] ∧
    (runEvents initSchedState [SchedEvent.start 1, SchedEvent.start 1,
      SchedEvent.startupTimeoutFires,
      SchedEvent.startupTimeoutFires]).captureInterval = some 3 := by
  decide

/-- From a quiescent state, one `startCameraCapture` call whose
startup timeout then fires leaves a quiescent state with exactly one
live interval. -/
theorem quiescent_restart (s : SchedState) (hq : Quiescent s) :
    Quiescent (fireStartTimeout (startCameraCapture s)) ∧
    (fireStartTimeout (startCameraCapture s)).liveIntervals.length = 1 := by
  obtain ⟨hp, hl⟩ := hq
  cases hc : s.captureInterval with
  | none =>
    rw [hc] at hl
    simp [startCameraCapture, fireStartTimeout, Quiescent, hp, hl, hc]
  | some i =>
    rw [hc] at hl
    simp [startCameraCapture, fireStartTimeout, Quiescent, hp, hl, hc]

/-- Claim C1, amended: starting capture twice in succession on the
same tab leaves exactly one active timer PROVIDED each start's
1-second startup timeout fires before the next start (starting from
any quiescent state).  Unrestricted, the claim is false: when the
second start occurs while the first startup timeout is still pending,
two intervals remain live (see the counterexample). -/
theorem c1_restart_single_timer (s : SchedState) (t1 t2 : Nat)
    (hq : Quiescent s) :
    Quiescent (runEvents s [SchedEvent.start t1,
      SchedEvent.startupTimeoutFires, SchedEvent.start t2,
      SchedEvent.startupTimeoutFires]) ∧
    (runEvents s [SchedEvent.start t1, SchedEvent.startupTimeoutFires,
      SchedEvent.start t2,
      SchedEvent.startupTimeoutFires]).liveIntervals.length = 1 := by
  have h1 := quiescent_restart s hq
  have h2 := quiescent_restart _ h1.1
  simpa [runEvents, stepEvent] using h2

/-- Witness for amended C1 at the initial state. -/
theorem c1_witness :
    Quiescent initSchedState ∧
    (runEvents initSchedState [SchedEvent.start 1,
      SchedEvent.startupTimeoutFires, SchedEvent.start 1,
      SchedEvent.startupTimeoutFires]).liveIntervals.length = 1 :=
  ⟨by decide, (c1_restart_single_timer initSchedState 1 1 (by decide)).2⟩

/-- Claim C10: the tab-removal listener stops capture unconditionally
— for every removed tab (related to the meeting or not) the handle is
left null and the interval it referenced is no longer live — and
`stopCameraCapture` is idempotent. -/
theorem c10_tab_removal_stops_capture (t : Nat) (s : SchedState) :
    (onTabRemoved t s).captureInterval = none ∧
    (∀ i, s.captureInterval = some i →
      i ∉ (onTabRemoved t s).liveIntervals) ∧
    stopCameraCapture (stopCameraCapture s) = stopCameraCapture s := by
  refine ⟨?_, ?_, ?_⟩
  · cases hc : s.captureInterval <;>
      simp [onTabRemoved, stopCameraCapture, hc]
  · intro i hi
    simp [onTabRemoved, stopCameraCapture, hi, List.mem_filter]
  · cases hc : s.captureInterval <;> simp [stopCameraCapture, hc]

/-- Witness for C10 at a state with a running interval, removing an
unrelated tab. -/
theorem c10_witness :
    (onTabRemoved 7 sRunning).captureInterval = none ∧
    5 ∉ (onTabRemoved 7 sRunning).liveIntervals ∧
    stopCameraCapture (stopCameraCapture sRunning) =
      stopCameraCapture sRunning := by
  have h := c10_tab_removal_stops_capture 7 sRunning
  exact ⟨h.1, h.2.1 5 rfl, h.2.2⟩

/-- Claim C3: when the endpoint answers with a non-2xx status, the
uploader's result is an error (caught and re-thrown, never an
uncaught exception — the function is total and returns `Except`), the
message handler replies `success: false`, the failure is logged by the
handler, and the uploader consults only the first oracle response —
i.e. it performs no retry (its outcome is independent of any further
responses the network could give). -/
theorem c3_upload_failure_reported (p : UploadParams) (now : String)
    (r : HttpResponse) (rest rest' : List HttpResponse)
    (h : ¬ (200 ≤ r.status ∧ r.status ≤ 299)) :
    (∃ e, (sendImageToBackend p now (r :: rest)).2 = Except.error e) ∧
    (onMessageImageCaptured
      (sendImageToBackend p now (r :: rest)).2).1.success = false ∧
    (∃ e, (onMessageImageCaptured
      (sendImageToBackend p now (r :: rest)).2).2 =
      ["Failed to send image from background: " ++ e]) ∧
    sendImageToBackend p now (r :: rest) =
      sendImageToBackend p now (r :: rest') := by
  have hok : responseOk r = false := by
    simp only [responseOk, Bool.and_eq_false_iff, decide_eq_false_iff_not]
    omega
  have hsend : ∀ l : List HttpResponse,
      sendImageToBackend p now (r :: l) =
      ({ method := "POST", url := BACKEND_URL, body := uploadBody p now },
       Except.error ("HTTP error! status: " ++ toString r.status)) := by
    intro l
    simp [sendImageToBackend, hok]
  refine ⟨⟨"HTTP error! status: " ++ toString r.status, ?_⟩, ?_,
    ⟨"HTTP error! status: " ++ toString r.status, ?_⟩, ?_⟩
  · rw [hsend]
  · rw [hsend]
    rfl
  · rw [hsend]
    rfl
  · rw [hsend rest, hsend rest']

/-- Witness for C3 at a concrete HTTP 500 response. -/
theorem c3_witness :
    (∃ e, (sendImageToBackend pExample "2026-01-01T00:00:00Z"
      [resp500]).2 = Except.error e) ∧
    (onMessageImageCaptured (sendImageToBackend pExample
      "2026-01-01T00:00:00Z" [resp500]).2).1.success = false := by
  have h := c3_upload_failure_reported pExample "2026-01-01T00:00:00Z"
    resp500 [] [] (by decide)
  exact ⟨h.1, h.2.1⟩

/-- Claim C7: every upload is a single POST to the fixed endpoint
whose JSON body has exactly the seven fields `imageData`, `meetingId`,
`timestamp`, `userId`, `participantId`, `userName`, `deviceId` in that
order, with `timestamp` bound to the client-generated timestamp; and
an `Except.ok` outcome occurs only when the (single) response consumed
has a 2xx status and a parsed JSON body equal to the returned value. -/
theorem c7_upload_request_shape (p : UploadParams) (now : String)
    (rs : List HttpResponse) :
    (sendImageToBackend p now rs).1.method = "POST" ∧
    (sendImageToBackend p now rs).1.url = BACKEND_URL ∧
    (sendImageToBackend p now rs).1.body.map Prod.fst =
      ["imageData", "meetingId", "timestamp", "userId", "participantId",
       "userName", "deviceId"] ∧
    ("timestamp", some now) ∈ (sendImageToBackend p now rs).1.body ∧
    (∀ j, (sendImageToBackend p now rs).2 = Except.ok j →
      ∃ r rest, rs = r :: rest ∧ 200 ≤ r.status ∧ r.status ≤ 299 ∧
        r.jsonBody = some j) := by
  refine ⟨rfl, rfl, rfl, by simp [sendImageToBackend, uploadBody], ?_⟩
  intro j hj
  cases rs with
  | nil => simp [sendImageToBackend] at hj
  | cons r rest =>
    refine ⟨r, rest, rfl, ?_⟩
    simp only [sendImageToBackend] at hj
    by_cases hok : responseOk r = true
    · rw [if_pos hok] at hj
      have hle : 200 ≤ r.status ∧ r.status ≤ 299 := by
        simp only [responseOk, Bool.and_eq_true, decide_eq_true_eq] at hok
        exact hok
      cases hjb : r.jsonBody with
      | none => rw [hjb] at hj; simp at hj
      | some jb =>
        rw [hjb] at hj
        simp only [Except.ok.injEq] at hj
        exact ⟨hle.1, hle.2, by rw [hj]⟩
    · rw [if_neg hok] at hj
      simp at hj

/-- Witness for C7 at a concrete successful exchange. -/
theorem c7_witness :
    (sendImageToBackend pExample "2026-01-01T00:00:00Z" [resp200]).1.url =
      BACKEND_URL ∧
    (∃ r rest, [resp200] = r :: rest ∧ 200 ≤ r.status ∧
      r.status ≤ 299 ∧ r.jsonBody = some "scored") :=
  ⟨(c7_upload_request_shape pExample "2026-01-01T00:00:00Z" [resp200]).2.1,
   (c7_upload_request_shape pExample "2026-01-01T00:00:00Z"
     [resp200]).2.2.2.2 "scored" rfl⟩

/-- Claim C6: on first use (`storage = none`) `getDeviceId` writes the
freshly generated identifier to local storage strictly before invoking
the callback (operation trace order), and after any call the storage
holds exactly the returned identifier; from then on every subsequent
call — whatever fresh identifiers it could generate — returns that
identical identifier and leaves the storage unchanged. -/
theorem c6_deviceId_persistent (st : Option String) (f : String)
    (fs : List String) :
    (st = none → getDeviceIdTrace st f =
      [DevIdEvent.readStorage, DevIdEvent.writeStorage f,
       DevIdEvent.callback f]) ∧
    (getDeviceId st f).2 = some (getDeviceId st f).1 ∧
    (iterateGetDeviceId (getDeviceId st f).2 fs).1 =
      List.replicate fs.length (getDeviceId st f).1 ∧
    (iterateGetDeviceId (getDeviceId st f).2 fs).2 =
      some (getDeviceId st f).1 := by
  have key : ∀ (id : String) (l : List String),
      iterateGetDeviceId (some id) l = (List.replicate l.length id, some id) := by
    intro id l
    induction l with
    | nil => rfl
    | cons a l ih =>
      simp [iterateGetDeviceId, getDeviceId, ih, List.replicate_succ]
  cases st with
  | none => simp [getDeviceIdTrace, getDeviceId, key]
  | some id => simp [getDeviceIdTrace, getDeviceId, key]

/-- Witness for C6: first use generates and stores `uuid-1`; two
subsequent calls both return `uuid-1` although they would have
generated `uuid-2` and `uuid-3`. -/
theorem c6_witness :
    getDeviceIdTrace none "uuid-1" =
      [DevIdEvent.readStorage, DevIdEvent.writeStorage "uuid-1",
       DevIdEvent.callback "uuid-1"] ∧
    (iterateGetDeviceId (getDeviceId none "uuid-1").2
      ["uuid-2", "uuid-3"]).1 = List.replicate 2 "uuid-1" := by
  have h := c6_deviceId_persistent none "uuid-1" ["uuid-2", "uuid-3"]
  exact ⟨h.1 rfl, h.2.2.1⟩

/-- Claim C8: the dashboard submit handler renders the no-data view
(not a table) for an empty result array, a table of the rows for a
non-empty array, and the distinct error view (also not a table) when
the fetch or JSON parse fails; the handler is a total function of the
settled outcome, so no exception escapes it. -/
theorem c8_dashboard_render (rows : List AttentionRow) (e : String)
    (hne : rows ≠ []) :
    handleSearchSubmit (Except.ok []) = RenderedView.noData ∧
    isTableView (handleSearchSubmit (Except.ok [])) = false ∧
    handleSearchSubmit (Except.ok rows) = RenderedView.table rows ∧
    handleSearchSubmit (Except.error e) = RenderedView.errorView ∧
    isTableView (handleSearchSubmit (Except.error e)) = false ∧
    viewHeading RenderedView.errorView ≠ viewHeading RenderedView.noData := by
  refine ⟨rfl, rfl, ?_, rfl, rfl, by decide⟩
  simp [handleSearchSubmit, List.length_eq_zero, hne]

/-- Witness for C8 at concrete outcomes: empty array, a one-row
array, and a failed fetch. -/
theorem c8_witness :
    handleSearchSubmit (Except.ok ([] : List AttentionRow)) =
      RenderedView.noData ∧
    handleSearchSubmit (Except.ok [rowExample]) =
      RenderedView.table [rowExample] ∧
    handleSearchSubmit (Except.error "fetch failed") =
      RenderedView.errorView := by
  have h := c8_dashboard_render [rowExample] "fetch failed" (by decide)
  exact ⟨h.1, h.2.2.1, h.2.2.2.1⟩

end StudentAttention
